import Mathlib

/-!
Verification of the CEWCE workflow contract
(src/contracts/workflow-contract/src/main.rs).

The contract is a finite-state-machine engine over a key-value store:
a `workflows` dictionary (id -> WorkflowData), a `transitions` dictionary
(id -> Vec<TransitionRecord>), and a single `workflow_count` counter (U256).
We embed the entry points shallowly: U256 values become `Nat` (with explicit
`2 ^ 256` bounds where the code checks overflow), byte arrays become
`List Nat`, and a reverted invocation is a `TxResult.reverted` carrying the
error code and the store as it stood at the revert point (every revert in
the source happens before any write, which the theorems below make precise).
-/

namespace CEWCE

/-- Workflow state constants from `mod states` (main.rs lines 113-126). -/
def DRAFT : Nat := 0

/-- Submitted for review. -/
def PENDING_REVIEW : Nat := 1

/-- Approved. -/
def APPROVED : Nat := 10

/-- Rejected. -/
def REJECTED : Nat := 11

/-- Escalated to higher authority. -/
def ESCALATED : Nat := 20

/-- Cancelled by requester. -/
def CANCELLED : Nat := 30

/-- Error codes of `enum WorkflowError` (main.rs lines 59-80). -/
inductive WorkflowError where
  | WorkflowNotFound
  | InvalidTransition
  | InsufficientPermissions
  | WorkflowAlreadyCompleted
  | InvalidWorkflowDefinition
  | TransitionValidationFailed
  | MissingArgument
  | InvalidArgument
  | StorageError
  | Overflow
deriving DecidableEq, Repr

/-- `struct WorkflowData` (main.rs lines 154-171).  `id` is a U256 modelled
as `Nat`; the 32-byte hashes and the `AccountHash` are byte lists; the u64
timestamps are `Nat`. -/
structure WorkflowData where
  id : Nat
  template_hash : List Nat
  data_hash : List Nat
  current_state : Nat
  creator : List Nat
  created_at : Nat
  updated_at : Nat
  is_completed : Bool
deriving DecidableEq, Repr

/-- `struct TransitionRecord` (main.rs lines 234-247). -/
structure TransitionRecord where
  from_state : Nat
  to_state : Nat
  actor : List Nat
  actor_role : Nat
  timestamp : Nat
  comment_hash : List Nat
deriving DecidableEq, Repr

/-- `is_terminal_state` (main.rs lines 348-350): APPROVED, REJECTED or
CANCELLED. -/
def is_terminal_state (state : Nat) : Bool :=
  state = APPROVED || state = REJECTED || state = CANCELLED

/-- `is_valid_transition` (main.rs lines 355-373): the explicit allow-list;
every pair not matched falls through to `false`. -/
def is_valid_transition (from_state to_state : Nat) : Bool :=
  match from_state, to_state with
  | 0, 1 => true
  | 0, 30 => true
  | 1, 10 => true
  | 1, 11 => true
  | 1, 20 => true
  | 20, 10 => true
  | 20, 11 => true
  | _, _ => false

/-- The contract's named-key storage: the `workflows` dictionary, the
`transitions` dictionary (both keyed by the stringified workflow id, which
is injective, so we key by `Nat` directly) and the `workflow_count` URef. -/
structure Store where
  workflows : Nat → Option WorkflowData
  transitions : Nat → Option (List TransitionRecord)
  workflow_count : Nat

/-- Result of one contract invocation: `ok` with a return value and the
final store, or `reverted` with the error and the store as it stood at the
moment `runtime::revert` was called (before host rollback). -/
inductive TxResult (α : Type) where
  | ok (v : α) (s : Store)
  | reverted (e : WorkflowError) (s : Store)

/-- Storage as set up by the installer `call()` (main.rs lines 580-598):
empty dictionaries, counter at zero. -/
def initStore : Store :=
  { workflows := fun _ => none
    transitions := fun _ => none
    workflow_count := 0 }

/-- `create_workflow` (main.rs lines 401-437).  `increment_workflow_count`
(lines 332-345) does a `checked_add(1)` on the U256 counter, reverting with
`Overflow` when the sum does not fit in 256 bits, writes the new count back
and returns it; the entry point stores a fresh `WorkflowData` in DRAFT, an
empty transition list, and returns the new id. -/
def create_workflow (s : Store) (template_hash data_hash caller : List Nat)
    (timestamp : Nat) : TxResult Nat :=
  if s.workflow_count + 1 < 2 ^ 256 then
    let workflow_id := s.workflow_count + 1
    let workflow : WorkflowData :=
      { id := workflow_id
        template_hash := template_hash
        data_hash := data_hash
        current_state := DRAFT
        creator := caller
        created_at := timestamp
        updated_at := timestamp
        is_completed := false }
    TxResult.ok workflow_id
      { workflows := fun j => if j = workflow_id then some workflow else s.workflows j
        transitions := fun j => if j = workflow_id then some [] else s.transitions j
        workflow_count := workflow_id }
  else
    TxResult.reverted WorkflowError.Overflow s

/-- `transition_state` (main.rs lines 454-514).  Loads the workflow
(NotFound if absent), rejects completed workflows (AlreadyCompleted),
rejects pairs outside the allow-list (InvalidTransition), then updates
`current_state`, `updated_at`, `is_completed` and appends a
`TransitionRecord` to the history (using an empty list when the history
entry is absent, mirroring `unwrap_or_else(|| Vec::new())`). -/
def transition_state (s : Store) (workflow_id to_state actor_role : Nat)
    (comment_hash caller : List Nat) (timestamp : Nat) : TxResult Unit :=
  match s.workflows workflow_id with
  | none => TxResult.reverted WorkflowError.WorkflowNotFound s
  | some workflow =>
    if workflow.is_completed then
      TxResult.reverted WorkflowError.WorkflowAlreadyCompleted s
    else
      let from_state := workflow.current_state
      if ! is_valid_transition from_state to_state then
        TxResult.reverted WorkflowError.InvalidTransition s
      else
        let transition : TransitionRecord :=
          { from_state := from_state
            to_state := to_state
            actor := caller
            actor_role := actor_role
            timestamp := timestamp
            comment_hash := comment_hash }
        let workflow' : WorkflowData :=
          { workflow with
              current_state := to_state
              updated_at := timestamp
              is_completed := is_terminal_state to_state }
        let s1 : Store :=
          { s with workflows := fun j =>
              if j = workflow_id then some workflow' else s.workflows j }
        let old : List TransitionRecord := (s1.transitions workflow_id).getD []
        TxResult.ok ()
          { s1 with transitions := fun j =>
              if j = workflow_id then some (old ++ [transition])
              else s1.transitions j }

/-- `get_workflow_state` (main.rs lines 526-537): NotFound when the id has
no entry in the workflows dictionary. -/
def get_workflow_state (s : Store) (workflow_id : Nat) :
    Except WorkflowError WorkflowData :=
  match s.workflows workflow_id with
  | none => Except.error WorkflowError.WorkflowNotFound
  | some workflow => Except.ok workflow

/-- `get_workflow_history` (main.rs lines 549-560): the stored list, or the
empty list when the dictionary has no entry (`unwrap_or_else(|| Vec::new())`);
this entry point has no NotFound path. -/
def get_workflow_history (s : Store) (workflow_id : Nat) :
    List TransitionRecord :=
  (s.transitions workflow_id).getD []

/-- `get_workflow_count` (main.rs lines 568-571). -/
def get_workflow_count (s : Store) : Nat :=
  s.workflow_count

/-- Minimal little-endian base-256 digits of a natural number, mirroring
`buf.iter().rev().skip_while(|b| **b == 0)` in the U256 `ToBytes` impl of
casper_types: trailing zero bytes are dropped, `0` serialises to no digits. -/
def natLEBytes (n : Nat) : List Nat :=
  if h : n = 0 then [] else n % 256 :: natLEBytes (n / 256)
decreasing_by exact Nat.div_lt_self (Nat.pos_of_ne_zero h) (by omega)

/-- Recombine little-endian base-256 digits into a natural number, as
`from_little_endian` does. -/
def natOfLEBytes (l : List Nat) : Nat :=
  l.foldr (fun b acc => b + 256 * acc) 0

/-- `ToBytes for U256` (casper_types): one length byte holding the count of
significant little-endian bytes, followed by those bytes. -/
def u256_to_bytes (n : Nat) : List Nat :=
  (natLEBytes n).length :: natLEBytes n

/-- `FromBytes for U256`: read the length byte, reject lengths above 32,
take that many bytes little-endian, return the remainder. -/
def u256_from_bytes (bytes : List Nat) : Option (Nat × List Nat) :=
  match bytes with
  | [] => none
  | len :: rest =>
    if len ≤ 32 ∧ len ≤ rest.length then
      some (natOfLEBytes (rest.take len), rest.drop len)
    else none

/-- `ToBytes for u64`: eight little-endian bytes. -/
def u64_to_bytes (n : Nat) : List Nat :=
  [n % 256, n / 256 % 256, n / 256 ^ 2 % 256, n / 256 ^ 3 % 256,
   n / 256 ^ 4 % 256, n / 256 ^ 5 % 256, n / 256 ^ 6 % 256, n / 256 ^ 7 % 256]

/-- `FromBytes for u64`: consume eight bytes, recombine little-endian. -/
def u64_from_bytes (bytes : List Nat) : Option (Nat × List Nat) :=
  match bytes with
  | b0 :: b1 :: b2 :: b3 :: b4 :: b5 :: b6 :: b7 :: rest =>
    some (b0 + 256 * (b1 + 256 * (b2 + 256 * (b3 + 256 * (b4 + 256 *
      (b5 + 256 * (b6 + 256 * b7)))))), rest)
  | _ => none

/-- `ToBytes for [u8; 32]` (also `AccountHash`): the raw bytes, no prefix. -/
def chunk32_to_bytes (l : List Nat) : List Nat :=
  l

/-- `FromBytes for [u8; 32]`: consume exactly 32 bytes. -/
def chunk32_from_bytes (bytes : List Nat) : Option (List Nat × List Nat) :=
  if 32 ≤ bytes.length then some (bytes.take 32, bytes.drop 32) else none

/-- `ToBytes for u8`: the single byte. -/
def u8_to_bytes (n : Nat) : List Nat :=
  [n]

/-- `FromBytes for u8`: consume one byte. -/
def u8_from_bytes (bytes : List Nat) : Option (Nat × List Nat) :=
  match bytes with
  | [] => none
  | b :: rest => some (b, rest)

/-- `ToBytes for bool`: one byte, 1 or 0. -/
def bool_to_bytes (b : Bool) : List Nat :=
  [if b then 1 else 0]

/-- `FromBytes for bool`: 0 is false, 1 is true, anything else is a
formatting error. -/
def bool_from_bytes (bytes : List Nat) : Option (Bool × List Nat) :=
  match bytes with
  | 0 :: rest => some (false, rest)
  | 1 :: rest => some (true, rest)
  | _ => none

/-- `ToBytes for WorkflowData` (main.rs lines 179-191): fields concatenated
in declaration order. -/
def WorkflowData.to_bytes (w : WorkflowData) : List Nat :=
  u256_to_bytes w.id ++ chunk32_to_bytes w.template_hash ++
    chunk32_to_bytes w.data_hash ++ u8_to_bytes w.current_state ++
    chunk32_to_bytes w.creator ++ u64_to_bytes w.created_at ++
    u64_to_bytes w.updated_at ++ bool_to_bytes w.is_completed

/-- `FromBytes for WorkflowData` (main.rs lines 205-230): fields parsed in
order, remainder threaded through. -/
def WorkflowData.from_bytes (bytes : List Nat) :
    Option (WorkflowData × List Nat) := do
  let (id, remainder) ← u256_from_bytes bytes
  let (template_hash, remainder) ← chunk32_from_bytes remainder
  let (data_hash, remainder) ← chunk32_from_bytes remainder
  let (current_state, remainder) ← u8_from_bytes remainder
  let (creator, remainder) ← chunk32_from_bytes remainder
  let (created_at, remainder) ← u64_from_bytes remainder
  let (updated_at, remainder) ← u64_from_bytes remainder
  let (is_completed, remainder) ← bool_from_bytes remainder
  pure (⟨id, template_hash, data_hash, current_state, creator, created_at,
    updated_at, is_completed⟩, remainder)

/-- `ToBytes for TransitionRecord` (main.rs lines 255-265). -/
def TransitionRecord.to_bytes (r : TransitionRecord) : List Nat :=
  u8_to_bytes r.from_state ++ u8_to_bytes r.to_state ++
    chunk32_to_bytes r.actor ++ u64_to_bytes r.actor_role ++
    u64_to_bytes r.timestamp ++ chunk32_to_bytes r.comment_hash

/-- `FromBytes for TransitionRecord` (main.rs lines 277-298). -/
def TransitionRecord.from_bytes (bytes : List Nat) :
    Option (TransitionRecord × List Nat) := do
  let (from_state, remainder) ← u8_from_bytes bytes
  let (to_state, remainder) ← u8_from_bytes remainder
  let (actor, remainder) ← chunk32_from_bytes remainder
  let (actor_role, remainder) ← u64_from_bytes remainder
  let (timestamp, remainder) ← u64_from_bytes remainder
  let (comment_hash, remainder) ← chunk32_from_bytes remainder
  pure (⟨from_state, to_state, actor, actor_role, timestamp, comment_hash⟩,
    remainder)

/-- Value ranges the Rust types impose on a `WorkflowData`: the id fits in a
U256, the hashes and the account hash are 32 bytes, the timestamps fit in a
u64. -/
def WorkflowData.Wf (w : WorkflowData) : Prop :=
  w.id < 2 ^ 256 ∧ w.template_hash.length = 32 ∧ w.data_hash.length = 32 ∧
    w.creator.length = 32 ∧ w.created_at < 2 ^ 64 ∧ w.updated_at < 2 ^ 64

instance (w : WorkflowData) : Decidable w.Wf := by
  unfold WorkflowData.Wf
  infer_instance

/-- Value ranges the Rust types impose on a `TransitionRecord`. -/
def TransitionRecord.Wf (r : TransitionRecord) : Prop :=
  r.actor.length = 32 ∧ r.comment_hash.length = 32 ∧
    r.actor_role < 2 ^ 64 ∧ r.timestamp < 2 ^ 64

instance (r : TransitionRecord) : Decidable r.Wf := by
  unfold TransitionRecord.Wf
  infer_instance

/-- One state-mutating invocation, with its caller-supplied arguments and
the host-supplied caller identity and block time. -/
inductive Op where
  | create (template_hash data_hash caller : List Nat) (timestamp : Nat)
  | transition (workflow_id to_state actor_role : Nat)
      (comment_hash caller : List Nat) (timestamp : Nat)

/-- Execute one invocation against the store; the host rolls a reverted
invocation back, so the store is unchanged on failure. -/
def applyOp (s : Store) (op : Op) : Store :=
  match op with
  | Op.create th dh c t =>
    match create_workflow s th dh c t with
    | TxResult.ok _ s' => s'
    | TxResult.reverted _ _ => s
  | Op.transition id ts role ch c t =>
    match transition_state s id ts role ch c t with
    | TxResult.ok _ s' => s'
    | TxResult.reverted _ _ => s

/-- Execute a sequence of invocations in order. -/
def applyOps (s : Store) (ops : List Op) : Store :=
  ops.foldl applyOp s

/-- A store reachable from installation by some sequence of invocations. -/
def Reachable (s : Store) : Prop :=
  ∃ ops : List Op, applyOps initStore ops = s

/-- Run a list of `create_workflow` invocations in order, collecting the
ids returned by the successful ones. -/
def run_creates (s : Store) :
    List (List Nat × List Nat × List Nat × Nat) → List Nat × Store
  | [] => ([], s)
  | (th, dh, c, t) :: rest =>
    match create_workflow s th dh c t with
    | TxResult.ok id s' =>
      let p := run_creates s' rest
      (id :: p.1, p.2)
    | TxResult.reverted _ _ => run_creates s rest

/-- `ChainOk a l b`: the record list `l` is a well-formed transition
history leading from state `a` to state `b`: each record departs from the
state the previous one arrived at. -/
def ChainOk : Nat → List TransitionRecord → Nat → Prop
  | a, [], b => a = b
  | a, r :: rest, b => r.from_state = a ∧ ChainOk r.to_state rest b

/-- The inductive invariant of the store: the counter fits in a U256, every
stored workflow has an id in `1..=workflow_count`, its `is_completed` flag
agrees with the terminal predicate on its current state, and its history is
a chain from DRAFT to its current state. -/
def Inv (s : Store) : Prop :=
  s.workflow_count < 2 ^ 256 ∧
  (∀ id, s.workflows id ≠ none → 1 ≤ id ∧ id ≤ s.workflow_count) ∧
  (∀ id w, s.workflows id = some w →
    w.is_completed = is_terminal_state w.current_state ∧
    ∃ l, s.transitions id = some l ∧ ChainOk DRAFT l w.current_state) ∧
  (∀ id, s.workflows id = none → s.transitions id = none)

theorem inv_initStore : Inv initStore := by
  refine ⟨by positivity, ?_, ?_, ?_⟩
  · intro id h
    exact absurd rfl h
  · intro id w h
    exact absurd h (by simp [initStore])
  · intro id h
    rfl

theorem chainOk_snoc {a b : Nat} {l : List TransitionRecord}
    {r : TransitionRecord} (h : ChainOk a l b) (hr : r.from_state = b) :
    ChainOk a (l ++ [r]) r.to_state := by
  induction l generalizing a with
  | nil => exact ⟨hr ▸ h ▸ rfl, rfl⟩
  | cons x xs ih => exact ⟨h.1, ih h.2⟩

/-- The fresh workflow record that `create_workflow` stores. -/
def freshWorkflow (workflow_id : Nat) (template_hash data_hash caller : List Nat)
    (timestamp : Nat) : WorkflowData :=
  { id := workflow_id
    template_hash := template_hash
    data_hash := data_hash
    current_state := DRAFT
    creator := caller
    created_at := timestamp
    updated_at := timestamp
    is_completed := false }

/-- The store after a successful `create_workflow`. -/
def createdStore (s : Store) (template_hash data_hash caller : List Nat)
    (timestamp : Nat) : Store :=
  { workflows := fun j =>
      if j = s.workflow_count + 1 then
        some (freshWorkflow (s.workflow_count + 1) template_hash data_hash caller timestamp)
      else s.workflows j
    transitions := fun j =>
      if j = s.workflow_count + 1 then some [] else s.transitions j
    workflow_count := s.workflow_count + 1 }

/-- Unfolding equation for `create_workflow`. -/
theorem create_workflow_eq (s : Store) (th dh c : List Nat) (t : Nat) :
    create_workflow s th dh c t =
      if s.workflow_count + 1 < 2 ^ 256 then
        TxResult.ok (s.workflow_count + 1) (createdStore s th dh c t)
      else TxResult.reverted WorkflowError.Overflow s :=
  rfl

theorem create_workflow_ok_iff {s : Store} {th dh c : List Nat} {t id : Nat}
    {s' : Store} :
    create_workflow s th dh c t = TxResult.ok id s' ↔
      s.workflow_count + 1 < 2 ^ 256 ∧ id = s.workflow_count + 1 ∧
      s' = createdStore s th dh c t := by
  rw [create_workflow_eq]
  by_cases hlt : s.workflow_count + 1 < 2 ^ 256
  · rw [if_pos hlt]
    constructor
    · intro h
      cases h
      exact ⟨hlt, rfl, rfl⟩
    · rintro ⟨-, rfl, rfl⟩
      rfl
  · rw [if_neg hlt]
    constructor
    · intro h
      cases h
    · rintro ⟨h, -, -⟩
      exact absurd h hlt

theorem create_workflow_reverted {s : Store} {th dh c : List Nat} {t : Nat}
    {e : WorkflowError} {s' : Store}
    (h : create_workflow s th dh c t = TxResult.reverted e s') :
    s' = s ∧ e = WorkflowError.Overflow ∧ ¬ s.workflow_count + 1 < 2 ^ 256 := by
  rw [create_workflow_eq] at h
  by_cases hlt : s.workflow_count + 1 < 2 ^ 256
  · rw [if_pos hlt] at h
    cases h
  · rw [if_neg hlt] at h
    cases h
    exact ⟨rfl, rfl, hlt⟩

/-- The record that a successful `transition_state` appends. -/
def newRecord (from_state to_state actor_role : Nat)
    (comment_hash caller : List Nat) (timestamp : Nat) : TransitionRecord :=
  { from_state := from_state
    to_state := to_state
    actor := caller
    actor_role := actor_role
    timestamp := timestamp
    comment_hash := comment_hash }

/-- The workflow record after a successful transition to `to_state`. -/
def transitionedWorkflow (w : WorkflowData) (to_state timestamp : Nat) :
    WorkflowData :=
  { w with
      current_state := to_state
      updated_at := timestamp
      is_completed := is_terminal_state to_state }

/-- The store after a successful `transition_state` on workflow `w`. -/
def transitionedStore (s : Store) (workflow_id : Nat) (w : WorkflowData)
    (to_state actor_role : Nat) (comment_hash caller : List Nat)
    (timestamp : Nat) : Store :=
  { workflows := fun j =>
      if j = workflow_id then some (transitionedWorkflow w to_state timestamp)
      else s.workflows j
    transitions := fun j =>
      if j = workflow_id then
        some ((s.transitions workflow_id).getD [] ++
          [newRecord w.current_state to_state actor_role comment_hash caller timestamp])
      else s.transitions j
    workflow_count := s.workflow_count }

/-- Unfolding equation for `transition_state` when the workflow is absent. -/
theorem transition_state_eq_none {s : Store} {id : Nat}
    (hw : s.workflows id = none) (ts role : Nat) (ch c : List Nat) (t : Nat) :
    transition_state s id ts role ch c t =
      TxResult.reverted WorkflowError.WorkflowNotFound s := by
  unfold transition_state
  rw [hw]

/-- Unfolding equation for `transition_state` when the workflow is present. -/
theorem transition_state_eq_some {s : Store} {id : Nat} {w : WorkflowData}
    (hw : s.workflows id = some w) (ts role : Nat) (ch c : List Nat) (t : Nat) :
    transition_state s id ts role ch c t =
      if w.is_completed then
        TxResult.reverted WorkflowError.WorkflowAlreadyCompleted s
      else if ! is_valid_transition w.current_state ts then
        TxResult.reverted WorkflowError.InvalidTransition s
      else TxResult.ok () (transitionedStore s id w ts role ch c t) := by
  unfold transition_state
  rw [hw]
  rfl

theorem transition_state_ok_iff {s : Store} {id ts role : Nat}
    {ch c : List Nat} {t : Nat} {s' : Store} :
    transition_state s id ts role ch c t = TxResult.ok () s' ↔
      ∃ w, s.workflows id = some w ∧ w.is_completed = false ∧
        is_valid_transition w.current_state ts = true ∧
        s' = transitionedStore s id w ts role ch c t := by
  cases hw : s.workflows id with
  | none =>
    rw [transition_state_eq_none hw]
    constructor
    · intro h
      cases h
    · rintro ⟨w, hw', -, -, -⟩
      exact Option.noConfusion hw'
  | some w =>
    rw [transition_state_eq_some hw]
    by_cases hdone : w.is_completed
    · rw [if_pos hdone]
      constructor
      · intro h
        cases h
      · rintro ⟨w', hw', hdone', -, -⟩
        cases hw'
        rw [hdone] at hdone'
        exact absurd hdone' (by simp)
    · rw [if_neg hdone]
      by_cases hvalid : is_valid_transition w.current_state ts
      · rw [if_neg (by simp [hvalid])]
        constructor
        · intro h
          cases h
          exact ⟨w, rfl, by simpa using hdone, hvalid, rfl⟩
        · rintro ⟨w', hw', -, -, rfl⟩
          cases hw'
          rfl
      · rw [if_pos (by simp only [Bool.not_eq_true] at hvalid; simp [hvalid])]
        constructor
        · intro h
          cases h
        · rintro ⟨w', hw', -, hvalid', -⟩
          cases hw'
          exact absurd hvalid' hvalid

theorem transition_state_reverted {s : Store} {id ts role : Nat}
    {ch c : List Nat} {t : Nat} {e : WorkflowError} {s' : Store}
    (h : transition_state s id ts role ch c t = TxResult.reverted e s') :
    s' = s := by
  cases hw : s.workflows id with
  | none =>
    rw [transition_state_eq_none hw] at h
    cases h
    rfl
  | some w =>
    rw [transition_state_eq_some hw] at h
    by_cases hdone : w.is_completed
    · rw [if_pos hdone] at h
      cases h
      rfl
    · rw [if_neg hdone] at h
      by_cases hvalid : is_valid_transition w.current_state ts
      · rw [if_neg (by simp [hvalid])] at h
        cases h
      · rw [if_pos (by simp only [Bool.not_eq_true] at hvalid; simp [hvalid])] at h
        cases h
        rfl

theorem transition_state_completed {s : Store} {id : Nat} {w : WorkflowData}
    (hw : s.workflows id = some w) (hc : w.is_completed = true)
    (ts role : Nat) (ch c : List Nat) (t : Nat) :
    transition_state s id ts role ch c t =
      TxResult.reverted WorkflowError.WorkflowAlreadyCompleted s := by
  rw [transition_state_eq_some hw, if_pos hc]

theorem transition_state_notfound {s : Store} {id : Nat}
    (hw : s.workflows id = none) (ts role : Nat) (ch c : List Nat) (t : Nat) :
    transition_state s id ts role ch c t =
      TxResult.reverted WorkflowError.WorkflowNotFound s :=
  transition_state_eq_none hw ts role ch c t

theorem transition_state_invalid {s : Store} {id : Nat} {w : WorkflowData}
    (hw : s.workflows id = some w) (hc : w.is_completed = false) {ts : Nat}
    (hv : is_valid_transition w.current_state ts = false)
    (role : Nat) (ch c : List Nat) (t : Nat) :
    transition_state s id ts role ch c t =
      TxResult.reverted WorkflowError.InvalidTransition s := by
  rw [transition_state_eq_some hw, if_neg (by simp [hc]), if_pos (by simp [hv])]

/-- Unfolding equations for `applyOp`. -/
theorem applyOp_create (s : Store) (th dh c : List Nat) (t : Nat) :
    applyOp s (Op.create th dh c t) =
      match create_workflow s th dh c t with
      | TxResult.ok _ s' => s'
      | TxResult.reverted _ _ => s :=
  rfl

theorem applyOp_transition (s : Store) (id ts role : Nat) (ch c : List Nat)
    (t : Nat) :
    applyOp s (Op.transition id ts role ch c t) =
      match transition_state s id ts role ch c t with
      | TxResult.ok _ s' => s'
      | TxResult.reverted _ _ => s :=
  rfl

theorem inv_createdStore {s : Store} (hs : Inv s)
    (hlt : s.workflow_count + 1 < 2 ^ 256) (th dh c : List Nat) (t : Nat) :
    Inv (createdStore s th dh c t) := by
  obtain ⟨hcount, hids, hrec, hnone⟩ := hs
  refine ⟨hlt, ?_, ?_, ?_⟩
  · intro j hj
    simp only [createdStore] at hj ⊢
    by_cases hje : j = s.workflow_count + 1
    · omega
    · rw [if_neg hje] at hj
      have := hids j hj
      omega
  · intro j w hj
    simp only [createdStore] at hj ⊢
    by_cases hje : j = s.workflow_count + 1
    · rw [if_pos hje] at hj
      cases hj
      exact ⟨rfl, [], by rw [if_pos hje], rfl⟩
    · rw [if_neg hje] at hj
      obtain ⟨hterm, l, hl, hcl⟩ := hrec j w hj
      exact ⟨hterm, l, by rw [if_neg hje]; exact hl, hcl⟩
  · intro j hj
    simp only [createdStore] at hj ⊢
    by_cases hje : j = s.workflow_count + 1
    · rw [if_pos hje] at hj
      cases hj
    · rw [if_neg hje] at hj
      rw [if_neg hje]
      exact hnone j hj

theorem inv_transitionedStore {s : Store} (hs : Inv s) {id ts : Nat}
    {w : WorkflowData} (hw : s.workflows id = some w)
    (role : Nat) (ch c : List Nat) (t : Nat) :
    Inv (transitionedStore s id w ts role ch c t) := by
  obtain ⟨hcount, hids, hrec, hnone⟩ := hs
  obtain ⟨hterm, l, hl, hcl⟩ := hrec id w hw
  refine ⟨hcount, ?_, ?_, ?_⟩
  · intro j hj
    simp only [transitionedStore] at hj ⊢
    by_cases hje : j = id
    · subst hje
      exact hids j (by rw [hw]; exact fun hx => Option.noConfusion hx)
    · rw [if_neg hje] at hj
      exact hids j hj
  · intro j w' hj
    simp only [transitionedStore] at hj ⊢
    by_cases hje : j = id
    · subst hje
      rw [if_pos rfl] at hj
      cases hj
      refine ⟨rfl, ?_⟩
      rw [if_pos rfl, hl]
      refine ⟨l ++ [newRecord w.current_state ts role ch c t], rfl, ?_⟩
      exact chainOk_snoc hcl rfl
    · rw [if_neg hje] at hj
      obtain ⟨hterm', l', hl', hcl'⟩ := hrec j w' hj
      exact ⟨hterm', l', by rw [if_neg hje]; exact hl', hcl'⟩
  · intro j hj
    simp only [transitionedStore] at hj ⊢
    by_cases hje : j = id
    · rw [if_pos hje] at hj
      cases hj
    · rw [if_neg hje] at hj
      rw [if_neg hje]
      exact hnone j hj

theorem inv_applyOp {s : Store} (hs : Inv s) (op : Op) :
    Inv (applyOp s op) := by
  cases op with
  | create th dh c t =>
    rw [applyOp_create]
    cases h : create_workflow s th dh c t with
    | reverted e s' => exact hs
    | ok id s' =>
      obtain ⟨hlt, -, rfl⟩ := create_workflow_ok_iff.mp h
      exact inv_createdStore hs hlt th dh c t
  | transition id ts role ch c t =>
    rw [applyOp_transition]
    cases h : transition_state s id ts role ch c t with
    | reverted e s' => exact hs
    | ok v s' =>
      cases v
      obtain ⟨w, hw, -, -, rfl⟩ := transition_state_ok_iff.mp h
      exact inv_transitionedStore hs hw role ch c t

theorem inv_applyOps {s : Store} (hs : Inv s) (ops : List Op) :
    Inv (applyOps s ops) := by
  induction ops generalizing s with
  | nil => exact hs
  | cons op rest ih => exact ih (inv_applyOp hs op)

theorem reachable_inv {s : Store} (hs : Reachable s) : Inv s := by
  obtain ⟨ops, rfl⟩ := hs
  exact inv_applyOps inv_initStore ops

/-- The allow-list as the spec states it, as a proposition on `(from, to)`. -/
def AllowPair (a b : Nat) : Prop :=
  (a = DRAFT ∧ (b = PENDING_REVIEW ∨ b = CANCELLED)) ∨
  (a = PENDING_REVIEW ∧ (b = APPROVED ∨ b = REJECTED ∨ b = ESCALATED)) ∨
  (a = ESCALATED ∧ (b = APPROVED ∨ b = REJECTED))

instance (a b : Nat) : Decidable (AllowPair a b) := by
  unfold AllowPair
  infer_instance

/-- The source's match agrees with the spec's allow-list on every pair of
naturals. -/
theorem is_valid_transition_iff (a b : Nat) :
    is_valid_transition a b = true ↔ AllowPair a b := by
  unfold is_valid_transition AllowPair DRAFT PENDING_REVIEW APPROVED REJECTED ESCALATED CANCELLED
  split
  · simp
  · simp
  · simp
  · simp
  · simp
  · simp
  · simp
  · rename_i h1 h2 h3 h4 h5 h6 h7
    simp only [Bool.false_eq_true, false_iff]
    rintro (⟨rfl, rfl | rfl⟩ | ⟨rfl, rfl | rfl | rfl⟩ | ⟨rfl, rfl | rfl⟩)
    · exact h1 rfl rfl
    · exact h2 rfl rfl
    · exact h3 rfl rfl
    · exact h4 rfl rfl
    · exact h5 rfl rfl
    · exact h6 rfl rfl
    · exact h7 rfl rfl

theorem chainOk_head {a b : Nat} {l : List TransitionRecord}
    (h : ChainOk a l b) : ∀ r, l.head? = some r → r.from_state = a := by
  cases l with
  | nil => intro r hr; cases hr
  | cons x xs =>
    intro r hr
    cases hr
    exact h.1

theorem chainOk_last {a b : Nat} {l : List TransitionRecord}
    (h : ChainOk a l b) : ∀ r, l.getLast? = some r → r.to_state = b := by
  induction l generalizing a with
  | nil => intro r hr; cases hr
  | cons x xs ih =>
    intro r hr
    cases xs with
    | nil =>
      cases hr
      exact h.2
    | cons y ys =>
      rw [List.getLast?_cons_cons] at hr
      exact ih h.2 r hr

theorem chainOk_chain' {a b : Nat} {l : List TransitionRecord}
    (h : ChainOk a l b) :
    List.Chain' (fun x y => x.to_state = y.from_state) l := by
  induction l generalizing a with
  | nil => exact List.chain'_nil
  | cons x xs ih =>
    rw [List.chain'_cons']
    refine ⟨?_, ih h.2⟩
    intro y hy
    exact (chainOk_head h.2 y hy).symm

/-- A completed workflow is untouched by any single further invocation. -/
theorem completed_frozen_applyOp {s : Store} (hs : Inv s) {id : Nat}
    {w : WorkflowData} (hw : s.workflows id = some w)
    (hc : w.is_completed = true) (op : Op) :
    (applyOp s op).workflows id = some w ∧
    (applyOp s op).transitions id = s.transitions id := by
  cases op with
  | create th dh c t =>
    rw [applyOp_create]
    cases h : create_workflow s th dh c t with
    | reverted e s' => exact ⟨hw, rfl⟩
    | ok nid s' =>
      obtain ⟨hlt, -, rfl⟩ := create_workflow_ok_iff.mp h
      have hle := hs.2.1 id (by rw [hw]; exact fun hx => Option.noConfusion hx)
      have hne : id ≠ s.workflow_count + 1 := by omega
      constructor
      · show (if id = s.workflow_count + 1 then _ else s.workflows id) = some w
        rw [if_neg hne]
        exact hw
      · show (if id = s.workflow_count + 1 then _ else s.transitions id) = s.transitions id
        rw [if_neg hne]
  | transition j ts role ch c t =>
    rw [applyOp_transition]
    cases h : transition_state s j ts role ch c t with
    | reverted e s' => exact ⟨hw, rfl⟩
    | ok v s' =>
      cases v
      obtain ⟨w', hw', hdone', -, rfl⟩ := transition_state_ok_iff.mp h
      have hne : id ≠ j := by
        intro hij
        subst hij
        rw [hw] at hw'
        cases hw'
        rw [hc] at hdone'
        exact absurd hdone' (by simp)
      constructor
      · show (if id = j then _ else s.workflows id) = some w
        rw [if_neg hne]
        exact hw
      · show (if id = j then _ else s.transitions id) = s.transitions id
        rw [if_neg hne]

/-- A completed workflow is untouched by every further sequence of
invocations. -/
theorem completed_frozen_applyOps {s : Store} (hs : Inv s) {id : Nat}
    {w : WorkflowData} (hw : s.workflows id = some w)
    (hc : w.is_completed = true) (ops : List Op) :
    (applyOps s ops).workflows id = some w ∧
    (applyOps s ops).transitions id = s.transitions id := by
  induction ops generalizing s with
  | nil => exact ⟨hw, rfl⟩
  | cons op rest ih =>
    have h1 := completed_frozen_applyOp hs hw hc op
    have h2 := ih (inv_applyOp hs op) h1.1
    exact ⟨h2.1, h2.2.trans h1.2⟩

/-- Unfolding equation for `run_creates` when the creation succeeds. -/
theorem run_creates_cons_ok {s : Store} {th dh c : List Nat} {t : Nat}
    (rest : List (List Nat × List Nat × List Nat × Nat))
    (hlt : s.workflow_count + 1 < 2 ^ 256) :
    run_creates s ((th, dh, c, t) :: rest) =
      ((s.workflow_count + 1) :: (run_creates (createdStore s th dh c t) rest).1,
       (run_creates (createdStore s th dh c t) rest).2) := by
  conv_lhs => simp only [run_creates]
  rw [create_workflow_eq, if_pos hlt]

/-- Successive creations return consecutive ids and advance the counter by
one per call. -/
theorem run_creates_spec (args : List (List Nat × List Nat × List Nat × Nat)) :
    ∀ s : Store, s.workflow_count + args.length < 2 ^ 256 →
      (run_creates s args).1 =
        (List.range args.length).map (fun i => s.workflow_count + i + 1) ∧
      (run_creates s args).2.workflow_count =
        s.workflow_count + args.length := by
  induction args with
  | nil =>
    intro s hlt
    exact ⟨rfl, rfl⟩
  | cons a rest ih =>
    intro s hlt
    obtain ⟨th, dh, c, t⟩ := a
    simp only [List.length_cons] at hlt
    rw [run_creates_cons_ok rest (by omega)]
    have hcs : (createdStore s th dh c t).workflow_count = s.workflow_count + 1 := rfl
    obtain ⟨hids, hcount⟩ := ih (createdStore s th dh c t) (by rw [hcs]; omega)
    constructor
    · rw [hids, hcs]
      simp only [List.length_cons, List.range_succ_eq_map, List.map_cons,
        List.map_map]
      refine congrArg₂ List.cons (by omega) ?_
      refine List.map_congr_left ?_
      intro i hi
      simp only [Function.comp_apply]
      omega
    · rw [hcount, hcs]
      simp only [List.length_cons]
      omega

theorem take_append_length {α : Type} (l r : List α) :
    (l ++ r).take l.length = l := by
  induction l with
  | nil => rfl
  | cons x xs ih => simp [ih]

theorem drop_append_length {α : Type} (l r : List α) :
    (l ++ r).drop l.length = r := by
  induction l with
  | nil => rfl
  | cons x xs ih => simp [ih]

theorem natOfLEBytes_natLEBytes (n : Nat) :
    natOfLEBytes (natLEBytes n) = n := by
  induction n using Nat.strong_induction_on with
  | _ n ih =>
    unfold natLEBytes
    split
    · rename_i h
      rw [h]
      rfl
    · rename_i h
      show n % 256 + 256 * natOfLEBytes (natLEBytes (n / 256)) = n
      rw [ih (n / 256) (Nat.div_lt_self (Nat.pos_of_ne_zero h) (by omega))]
      omega

theorem natLEBytes_length_le {n k : Nat} (h : n < 256 ^ k) :
    (natLEBytes n).length ≤ k := by
  induction k generalizing n with
  | zero =>
    rw [pow_zero] at h
    unfold natLEBytes
    rw [dif_pos (by omega)]
    exact Nat.le_refl 0
  | succ k ih =>
    unfold natLEBytes
    split
    · exact Nat.zero_le _
    · rw [List.length_cons]
      have hdiv : n / 256 < 256 ^ k := by
        rw [Nat.div_lt_iff_lt_mul (by omega : 0 < 256)]
        calc n < 256 ^ (k + 1) := h
          _ = 256 ^ k * 256 := by rw [pow_succ]
      exact Nat.succ_le_succ (ih hdiv)

theorem u256_from_bytes_cons (len : Nat) (rest : List Nat) :
    u256_from_bytes (len :: rest) =
      if len ≤ 32 ∧ len ≤ rest.length then
        some (natOfLEBytes (rest.take len), rest.drop len)
      else none :=
  rfl

theorem u256_roundtrip {n : Nat} (h : n < 2 ^ 256) (rest : List Nat) :
    u256_from_bytes (u256_to_bytes n ++ rest) = some (n, rest) := by
  have hlen : (natLEBytes n).length ≤ 32 := by
    refine natLEBytes_length_le ?_
    calc n < 2 ^ 256 := h
      _ = 256 ^ 32 := by norm_num
  unfold u256_to_bytes
  rw [List.cons_append, u256_from_bytes_cons]
  rw [if_pos ⟨hlen, by rw [List.length_append]; omega⟩]
  rw [take_append_length, drop_append_length, natOfLEBytes_natLEBytes]

theorem u64_roundtrip {n : Nat} (h : n < 2 ^ 64) (rest : List Nat) :
    u64_from_bytes (u64_to_bytes n ++ rest) = some (n, rest) := by
  norm_num at h
  unfold u64_to_bytes u64_from_bytes
  simp only [List.cons_append, List.nil_append, Option.some.injEq,
    Prod.mk.injEq]
  norm_num
  omega

theorem chunk32_roundtrip {l : List Nat} (h : l.length = 32)
    (rest : List Nat) :
    chunk32_from_bytes (chunk32_to_bytes l ++ rest) = some (l, rest) := by
  unfold chunk32_to_bytes chunk32_from_bytes
  rw [if_pos (by rw [List.length_append]; omega)]
  rw [← h, take_append_length, drop_append_length]

theorem u8_roundtrip (n : Nat) (rest : List Nat) :
    u8_from_bytes (u8_to_bytes n ++ rest) = some (n, rest) :=
  rfl

theorem bool_roundtrip (b : Bool) (rest : List Nat) :
    bool_from_bytes (bool_to_bytes b ++ rest) = some (b, rest) := by
  cases b with
  | false => rfl
  | true => rfl

theorem workflowData_roundtrip {w : WorkflowData} (hw : w.Wf)
    (rest : List Nat) :
    WorkflowData.from_bytes (w.to_bytes ++ rest) = some (w, rest) := by
  obtain ⟨h1, h2, h3, h4, h5, h6⟩ := hw
  unfold WorkflowData.to_bytes WorkflowData.from_bytes
  simp only [List.append_assoc]
  rw [u256_roundtrip h1]
  simp only [Option.bind_eq_bind, Option.some_bind]
  rw [chunk32_roundtrip h2]
  simp only [Option.some_bind]
  rw [chunk32_roundtrip h3]
  simp only [Option.some_bind]
  rw [u8_roundtrip]
  simp only [Option.some_bind]
  rw [chunk32_roundtrip h4]
  simp only [Option.some_bind]
  rw [u64_roundtrip h5]
  simp only [Option.some_bind]
  rw [u64_roundtrip h6]
  simp only [Option.some_bind]
  rw [bool_roundtrip]
  rfl

theorem transitionRecord_roundtrip {r : TransitionRecord} (hr : r.Wf)
    (rest : List Nat) :
    TransitionRecord.from_bytes (r.to_bytes ++ rest) = some (r, rest) := by
  obtain ⟨h1, h2, h3, h4⟩ := hr
  unfold TransitionRecord.to_bytes TransitionRecord.from_bytes
  simp only [List.append_assoc]
  rw [u8_roundtrip]
  simp only [Option.bind_eq_bind, Option.some_bind]
  rw [u8_roundtrip]
  simp only [Option.some_bind]
  rw [chunk32_roundtrip h1]
  simp only [Option.some_bind]
  rw [u64_roundtrip h3]
  simp only [Option.some_bind]
  rw [u64_roundtrip h4]
  simp only [Option.some_bind]
  rw [chunk32_roundtrip h2]
  rfl

theorem get_workflow_state_some {s : Store} {id : Nat} {w : WorkflowData}
    (hw : s.workflows id = some w) :
    get_workflow_state s id = Except.ok w := by
  unfold get_workflow_state
  rw [hw]

theorem get_workflow_state_none {s : Store} {id : Nat}
    (hw : s.workflows id = none) :
    get_workflow_state s id = Except.error WorkflowError.WorkflowNotFound := by
  unfold get_workflow_state
  rw [hw]

/-- Concrete store used by the witnesses: installation followed by one
creation. -/
def storeOne : Store :=
  createdStore initStore [] [] [] 0

/-- Concrete operation sequence: one creation, then a DRAFT to CANCELLED
transition, which completes workflow 1. -/
def opsC2 : List Op :=
  [Op.create [] [] [] 0, Op.transition 1 CANCELLED 1 [] [] 5]

/-- The store reached by `opsC2`. -/
def storeC2 : Store :=
  applyOps initStore opsC2

/-- The completed record of workflow 1 in `storeC2`. -/
def wfC2 : WorkflowData :=
  transitionedWorkflow (freshWorkflow 1 [] [] [] 0) CANCELLED 5

/-- C1: on a workflow that exists and is not completed, `transition_state`
succeeds exactly on the allow-list DRAFT→{PENDING_REVIEW, CANCELLED},
PENDING_REVIEW→{APPROVED, REJECTED, ESCALATED},
ESCALATED→{APPROVED, REJECTED}; every other `(from, to)` pair in
`0..=255`, including self-transitions, pairs with a terminal `from` and
pairs with states at or above 100, fails with InvalidTransition. -/
theorem C1_transition_allowlist {s : Store} {id : Nat} {w : WorkflowData}
    (hw : s.workflows id = some w) (hc : w.is_completed = false)
    (hfrom : w.current_state < 256) {ts : Nat} (hts : ts < 256)
    (role : Nat) (ch c : List Nat) (t : Nat) :
    ((∃ s', transition_state s id ts role ch c t = TxResult.ok () s') ↔
      AllowPair w.current_state ts) ∧
    (¬ AllowPair w.current_state ts →
      transition_state s id ts role ch c t =
        TxResult.reverted WorkflowError.InvalidTransition s) := by
  constructor
  · constructor
    · rintro ⟨s', hs'⟩
      obtain ⟨w', hw', -, hvalid, -⟩ := transition_state_ok_iff.mp hs'
      rw [hw] at hw'
      cases hw'
      exact (is_valid_transition_iff _ _).mp hvalid
    · intro hallow
      exact ⟨transitionedStore s id w ts role ch c t,
        transition_state_ok_iff.mpr
          ⟨w, hw, hc, (is_valid_transition_iff _ _).mpr hallow, rfl⟩⟩
  · intro hallow
    refine transition_state_invalid hw hc ?_ role ch c t
    cases hvb : is_valid_transition w.current_state ts with
    | false => rfl
    | true => exact absurd ((is_valid_transition_iff _ _).mp hvb) hallow

/-- Witness for C1 at a concrete store: workflow 1 in DRAFT, target
PENDING_REVIEW. -/
theorem C1_transition_allowlist_witness :
    (∃ s', transition_state storeOne 1 PENDING_REVIEW 1 [] [] 5 =
      TxResult.ok () s') ↔
      AllowPair (freshWorkflow 1 [] [] [] 0).current_state PENDING_REVIEW :=
  (@C1_transition_allowlist storeOne 1 (freshWorkflow 1 [] [] [] 0) rfl rfl
    (by decide) PENDING_REVIEW (by decide) 1 [] [] 5).1

/-- C2: once `is_completed` is true for an id in a reachable store, the
current state is terminal (APPROVED, REJECTED or CANCELLED), every further
`transition_state` on that id fails with AlreadyCompleted for every target
state, and no further sequence of operations ever changes the workflow's
record or its history. -/
theorem C2_completed_frozen {s : Store} (hs : Reachable s) {id : Nat}
    {w : WorkflowData} (hw : s.workflows id = some w)
    (hc : w.is_completed = true) :
    (w.current_state = APPROVED ∨ w.current_state = REJECTED ∨
      w.current_state = CANCELLED) ∧
    (∀ ts role ch c t, transition_state s id ts role ch c t =
      TxResult.reverted WorkflowError.WorkflowAlreadyCompleted s) ∧
    (∀ ops, (applyOps s ops).workflows id = some w ∧
      (applyOps s ops).transitions id = s.transitions id) := by
  have hInv := reachable_inv hs
  have hterm := (hInv.2.2.1 id w hw).1
  refine ⟨?_, ?_, ?_⟩
  · rw [hc] at hterm
    have hterm' := hterm.symm
    unfold is_terminal_state at hterm'
    simp only [Bool.or_eq_true, decide_eq_true_eq] at hterm'
    tauto
  · intro ts role ch c t
    exact transition_state_completed hw hc ts role ch c t
  · intro ops
    exact completed_frozen_applyOps hInv hw hc ops

/-- Witness for C2: after create and a CANCELLED transition, workflow 1 is
completed and a further transition attempt fails AlreadyCompleted. -/
theorem C2_completed_frozen_witness :
    (wfC2.current_state = APPROVED ∨ wfC2.current_state = REJECTED ∨
      wfC2.current_state = CANCELLED) ∧
    transition_state storeC2 1 PENDING_REVIEW 1 [] [] 6 =
      TxResult.reverted WorkflowError.WorkflowAlreadyCompleted storeC2 := by
  have h := @C2_completed_frozen storeC2 ⟨opsC2, rfl⟩ 1 wfC2 rfl rfl
  exact ⟨h.1, h.2.1 1 1 [] [] 6⟩

/-- C3: in every reachable store, the recorded transition sequence of an
existing workflow is a chain: adjacent records agree
(`record[i].to_state = record[i+1].from_state`), the first record departs
from DRAFT, the last record arrives at the current state, and an empty
sequence means the workflow is still in DRAFT. -/
theorem C3_history_reconstructs {s : Store} (hs : Reachable s) {id : Nat}
    {w : WorkflowData} (hw : s.workflows id = some w) :
    ∃ l, s.transitions id = some l ∧
      List.Chain' (fun x y => x.to_state = y.from_state) l ∧
      (∀ r, l.head? = some r → r.from_state = DRAFT) ∧
      (∀ r, l.getLast? = some r → r.to_state = w.current_state) ∧
      (l = [] → w.current_state = DRAFT) := by
  obtain ⟨-, l, hl, hchain⟩ := (reachable_inv hs).2.2.1 id w hw
  refine ⟨l, hl, chainOk_chain' hchain, chainOk_head hchain,
    chainOk_last hchain, ?_⟩
  intro hnil
  rw [hnil] at hchain
  exact hchain.symm

/-- Witness for C3 at the concrete store reached by `opsC2`. -/
theorem C3_history_reconstructs_witness :
    ∃ l, storeC2.transitions 1 = some l ∧
      List.Chain' (fun x y => x.to_state = y.from_state) l ∧
      (∀ r, l.head? = some r → r.from_state = DRAFT) ∧
      (∀ r, l.getLast? = some r → r.to_state = wfC2.current_state) ∧
      (l = [] → wfC2.current_state = DRAFT) :=
  @C3_history_reconstructs storeC2 ⟨opsC2, rfl⟩ 1 wfC2 rfl

/-- C4: N creations from a fresh installation issue the identifiers
1, 2, ..., N in order: the list of issued ids is exactly
`map (fun i => i + 1) (range N)`, strictly increasing and without
duplicates, and `get_workflow_count` afterwards returns N. -/
theorem C4_create_ids (args : List (List Nat × List Nat × List Nat × Nat))
    (hN : args.length < 2 ^ 256) :
    (run_creates initStore args).1 =
      (List.range args.length).map (fun i => i + 1) ∧
    List.Pairwise (fun a b => a < b) (run_creates initStore args).1 ∧
    (run_creates initStore args).1.Nodup ∧
    get_workflow_count (run_creates initStore args).2 = args.length := by
  obtain ⟨hids, hcount⟩ := run_creates_spec args initStore
    (by simp only [initStore]; omega)
  have hids' : (run_creates initStore args).1 =
      (List.range args.length).map (fun i => i + 1) := by
    rw [hids]
    refine List.map_congr_left ?_
    intro i hi
    show initStore.workflow_count + i + 1 = i + 1
    simp [initStore]
  have hpair : List.Pairwise (fun a b => a < b)
      (run_creates initStore args).1 := by
    rw [hids']
    refine List.Pairwise.map _ ?_ (List.pairwise_lt_range args.length)
    intro a b hab
    omega
  refine ⟨hids', hpair, hpair.imp ?_, ?_⟩
  · intro a b hab
    omega
  · show (run_creates initStore args).2.workflow_count = args.length
    rw [hcount]
    simp [initStore]

/-- Witness for C4 with three concrete creations. -/
theorem C4_create_ids_witness :
    (run_creates initStore [([], [], [], 0), ([], [], [], 1),
      ([], [], [], 2)]).1 = [1, 2, 3] ∧
    get_workflow_count (run_creates initStore [([], [], [], 0),
      ([], [], [], 1), ([], [], [], 2)]).2 = 3 := by
  have h := C4_create_ids [([], [], [], 0), ([], [], [], 1), ([], [], [], 2)]
    (by norm_num)
  exact ⟨h.1, h.2.2.2⟩

/-- C5: reading the workflow straight after a successful creation returns
a record in DRAFT carrying the creation arguments, the caller as creator,
equal creation and update timestamps, `is_completed = false`, and the
returned id. -/
theorem C5_create_get_roundtrip {s : Store} {th dh c : List Nat}
    {t id : Nat} {s' : Store}
    (h : create_workflow s th dh c t = TxResult.ok id s') :
    get_workflow_state s' id = Except.ok
      { id := id, template_hash := th, data_hash := dh,
        current_state := DRAFT, creator := c, created_at := t,
        updated_at := t, is_completed := false } := by
  obtain ⟨-, rfl, rfl⟩ := create_workflow_ok_iff.mp h
  refine get_workflow_state_some ?_
  show (if s.workflow_count + 1 = s.workflow_count + 1 then _
    else s.workflows (s.workflow_count + 1)) = _
  rw [if_pos rfl]
  rfl

/-- Witness for C5: creation on the fresh store, then the read. -/
theorem C5_create_get_roundtrip_witness :
    get_workflow_state storeOne 1 = Except.ok
      { id := 1, template_hash := [], data_hash := [],
        current_state := DRAFT, creator := [], created_at := 0,
        updated_at := 0, is_completed := false } :=
  @C5_create_get_roundtrip initStore [] [] [] 0 1 storeOne rfl

/-- C6 counterexample: `get_workflow_history` on the never-created id 5
returns the empty sequence rather than failing with NotFound — the entry
point has no failure path at all (main.rs lines 549-560 substitute an
empty vector when the dictionary has no entry). -/
theorem C6_history_notfound_counterexample :
    initStore.workflows 5 = none ∧
    get_workflow_history initStore 5 = [] :=
  ⟨rfl, rfl⟩

/-- C6 (amended): `get_workflow_history` returns the empty sequence both
for an existing, never-transitioned workflow and for a never-created id;
it never fails with NotFound. -/
theorem C6_history_empty {s : Store} (hs : Reachable s) :
    (∀ th dh c t id s', create_workflow s th dh c t = TxResult.ok id s' →
      get_workflow_history s' id = []) ∧
    (∀ id, s.workflows id = none → get_workflow_history s id = []) := by
  constructor
  · intro th dh c t id s' h
    obtain ⟨-, rfl, rfl⟩ := create_workflow_ok_iff.mp h
    unfold get_workflow_history
    show ((if s.workflow_count + 1 = s.workflow_count + 1 then some []
      else s.transitions (s.workflow_count + 1)).getD []) = []
    rw [if_pos rfl]
    rfl
  · intro id h
    have hnone := (reachable_inv hs).2.2.2 id h
    unfold get_workflow_history
    rw [hnone]
    rfl

/-- Witness for C6 (amended): an empty history for created-but-untouched
workflow 1 and for never-created id 5. -/
theorem C6_history_empty_witness :
    get_workflow_history storeOne 1 = [] ∧
    get_workflow_history storeOne 5 = [] := by
  have h := @C6_history_empty initStore ⟨[], rfl⟩
  have h2 := @C6_history_empty storeOne ⟨[Op.create [] [] [] 0], rfl⟩
  exact ⟨h.1 [] [] [] 0 1 storeOne rfl, h2.2 5 rfl⟩

/-- C7: a failing `transition_state` leaves the store at the revert point
exactly as it was before the call — no partial effect; in particular, a
direct DRAFT to APPROVED attempt right after creation fails with
InvalidTransition, the state stays DRAFT and the history stays empty. -/
theorem C7_no_partial_effect :
    (∀ s id ts role ch c t e s₂,
      transition_state s id ts role ch c t = TxResult.reverted e s₂ →
        s₂ = s) ∧
    (∀ s th dh c t id s',
      create_workflow s th dh c t = TxResult.ok id s' →
      ∀ role ch c₂ t₂,
        transition_state s' id APPROVED role ch c₂ t₂ =
          TxResult.reverted WorkflowError.InvalidTransition s' ∧
        get_workflow_state s' id = Except.ok (freshWorkflow id th dh c t) ∧
        get_workflow_history s' id = []) := by
  constructor
  · intro s id ts role ch c t e s₂ h
    exact transition_state_reverted h
  · intro s th dh c t id s' h role ch c₂ t₂
    obtain ⟨-, rfl, rfl⟩ := create_workflow_ok_iff.mp h
    have hw : (createdStore s th dh c t).workflows (s.workflow_count + 1) =
        some (freshWorkflow (s.workflow_count + 1) th dh c t) := by
      show (if s.workflow_count + 1 = s.workflow_count + 1 then _
        else s.workflows (s.workflow_count + 1)) = _
      rw [if_pos rfl]
    refine ⟨?_, get_workflow_state_some hw, ?_⟩
    · exact transition_state_invalid hw rfl (by rfl) role ch c₂ t₂
    · unfold get_workflow_history
      show ((if s.workflow_count + 1 = s.workflow_count + 1 then some []
        else s.transitions (s.workflow_count + 1)).getD []) = []
      rw [if_pos rfl]
      rfl

/-- Witness for C7: a NotFound failure leaves the initial store unchanged,
and the DRAFT to APPROVED scenario on workflow 1. -/
theorem C7_no_partial_effect_witness :
    initStore = initStore ∧
    (transition_state storeOne 1 APPROVED 1 [] [] 6 =
      TxResult.reverted WorkflowError.InvalidTransition storeOne ∧
     get_workflow_state storeOne 1 =
      Except.ok (freshWorkflow 1 [] [] [] 0) ∧
     get_workflow_history storeOne 1 = []) :=
  ⟨C7_no_partial_effect.1 initStore 0 1 1 [] [] 0
      WorkflowError.WorkflowNotFound initStore rfl,
   C7_no_partial_effect.2 initStore [] [] [] 0 1 storeOne rfl 1 [] [] 6⟩

/-- C8: a successful transition rewrites only `current_state`,
`updated_at` and `is_completed` of the target workflow — `id`,
`template_hash`, `data_hash`, `creator` and `created_at` are carried over
unchanged — and leaves every other workflow's record and history, and the
counter, untouched. -/
theorem C8_transition_frame {s : Store} {id ts role : Nat}
    {ch c : List Nat} {t : Nat} {s' : Store} {w : WorkflowData}
    (h : transition_state s id ts role ch c t = TxResult.ok () s')
    (hw : s.workflows id = some w) :
    s'.workflows id = some { w with current_state := ts, updated_at := t, is_completed := is_terminal_state ts } ∧
    (∀ j, j ≠ id → s'.workflows j = s.workflows j) ∧
    (∀ j, j ≠ id → s'.transitions j = s.transitions j) ∧
    s'.workflow_count = s.workflow_count := by
  obtain ⟨w', hw', -, -, rfl⟩ := transition_state_ok_iff.mp h
  rw [hw] at hw'
  cases hw'
  refine ⟨?_, ?_, ?_, rfl⟩
  · show (if id = id then some (transitionedWorkflow w ts t)
      else s.workflows id) = _
    rw [if_pos rfl]
    rfl
  · intro j hj
    show (if j = id then some (transitionedWorkflow w ts t)
      else s.workflows j) = s.workflows j
    rw [if_neg hj]
  · intro j hj
    show (if j = id then _ else s.transitions j) = s.transitions j
    rw [if_neg hj]

/-- Witness for C8: the DRAFT to PENDING_REVIEW transition on workflow 1,
checked at the untouched id 5 and on the counter. -/
theorem C8_transition_frame_witness :
    (transitionedStore storeOne 1 (freshWorkflow 1 [] [] [] 0)
      PENDING_REVIEW 2 [] [] 7).workflows 1 =
      some (transitionedWorkflow (freshWorkflow 1 [] [] [] 0)
        PENDING_REVIEW 7) ∧
    (transitionedStore storeOne 1 (freshWorkflow 1 [] [] [] 0)
      PENDING_REVIEW 2 [] [] 7).workflows 5 = storeOne.workflows 5 ∧
    (transitionedStore storeOne 1 (freshWorkflow 1 [] [] [] 0)
      PENDING_REVIEW 2 [] [] 7).workflow_count =
      storeOne.workflow_count := by
  have h := @C8_transition_frame storeOne 1 PENDING_REVIEW 2 [] [] 7
    (transitionedStore storeOne 1 (freshWorkflow 1 [] [] [] 0)
      PENDING_REVIEW 2 [] [] 7) (freshWorkflow 1 [] [] [] 0) rfl rfl
  exact ⟨h.1, h.2.1 5 (by decide), h.2.2.2⟩

/-- C9: serialization round-trips with an empty remainder for both
`WorkflowData` and `TransitionRecord`, and `to_bytes` is deterministic:
equal values give identical byte sequences. -/
theorem C9_serialization_roundtrip :
    (∀ w : WorkflowData, w.Wf →
      WorkflowData.from_bytes w.to_bytes = some (w, [])) ∧
    (∀ r : TransitionRecord, r.Wf →
      TransitionRecord.from_bytes r.to_bytes = some (r, [])) ∧
    (∀ w w' : WorkflowData, w = w' → w.to_bytes = w'.to_bytes) ∧
    (∀ r r' : TransitionRecord, r = r' → r.to_bytes = r'.to_bytes) := by
  refine ⟨?_, ?_, ?_, ?_⟩
  · intro w hw
    have h := workflowData_roundtrip hw []
    rwa [List.append_nil] at h
  · intro r hr
    have h := transitionRecord_roundtrip hr []
    rwa [List.append_nil] at h
  · intro w w' h
    rw [h]
  · intro r r' h
    rw [h]

/-- A concrete well-formed workflow record for the C9 witness. -/
def sampleWorkflow : WorkflowData :=
  { id := 3
    template_hash := List.replicate 32 1
    data_hash := List.replicate 32 2
    current_state := 1
    creator := List.replicate 32 3
    created_at := 4
    updated_at := 5
    is_completed := false }

/-- A concrete well-formed transition record for the C9 witness. -/
def sampleRecord : TransitionRecord :=
  { from_state := 0
    to_state := 1
    actor := List.replicate 32 7
    actor_role := 2
    timestamp := 9
    comment_hash := List.replicate 32 8 }

/-- Witness for C9 on concrete values. -/
theorem C9_serialization_roundtrip_witness :
    WorkflowData.from_bytes sampleWorkflow.to_bytes =
      some (sampleWorkflow, []) ∧
    TransitionRecord.from_bytes sampleRecord.to_bytes =
      some (sampleRecord, []) :=
  ⟨C9_serialization_roundtrip.1 sampleWorkflow (by decide),
   C9_serialization_roundtrip.2.1 sampleRecord (by decide)⟩

/-- C10: `create_workflow` returns the post-increment counter, so the
first workflow gets id 1; every successful creation returns exactly the
counter value afterwards (`get_workflow_count` at that moment); id 0 never
denotes a workflow in any reachable store; and after N creations from a
fresh installation the issued ids are exactly {1, ..., N}. -/
theorem C10_ids_start_at_one :
    (∀ s, Reachable s → get_workflow_state s 0 =
      Except.error WorkflowError.WorkflowNotFound) ∧
    (∀ s th dh c t, s.workflow_count + 1 < 2 ^ 256 →
      ∃ s', create_workflow s th dh c t =
        TxResult.ok (s.workflow_count + 1) s' ∧
        get_workflow_count s' = s.workflow_count + 1) ∧
    (∀ th dh c t, ∃ s',
      create_workflow initStore th dh c t = TxResult.ok 1 s') ∧
    (∀ args : List (List Nat × List Nat × List Nat × Nat),
      args.length < 2 ^ 256 →
      ∀ j, j ∈ (run_creates initStore args).1 ↔
        1 ≤ j ∧ j ≤ args.length) := by
  refine ⟨?_, ?_, ?_, ?_⟩
  · intro s hs
    cases hws : s.workflows 0 with
    | none => exact get_workflow_state_none hws
    | some w =>
      have := (reachable_inv hs).2.1 0
        (by rw [hws]; exact fun hx => Option.noConfusion hx)
      omega
  · intro s th dh c t hlt
    exact ⟨createdStore s th dh c t,
      create_workflow_ok_iff.mpr ⟨hlt, rfl, rfl⟩, rfl⟩
  · intro th dh c t
    exact ⟨createdStore initStore th dh c t,
      create_workflow_ok_iff.mpr ⟨by norm_num [initStore], rfl, rfl⟩⟩
  · intro args hN j
    obtain ⟨hids, -⟩ := run_creates_spec args initStore
      (by simp only [initStore]; omega)
    rw [hids]
    simp only [List.mem_map, List.mem_range]
    constructor
    · rintro ⟨i, hi, rfl⟩
      show 1 ≤ initStore.workflow_count + i + 1 ∧
        initStore.workflow_count + i + 1 ≤ args.length
      simp only [initStore]
      omega
    · rintro ⟨h1, h2⟩
      refine ⟨j - 1, by omega, ?_⟩
      show initStore.workflow_count + (j - 1) + 1 = j
      simp only [initStore]
      omega

/-- Witness for C10: the fresh store has no workflow 0, and after three
creations the issued ids contain 2 but not 0. -/
theorem C10_ids_start_at_one_witness :
    get_workflow_state initStore 0 =
      Except.error WorkflowError.WorkflowNotFound ∧
    (2 ∈ (run_creates initStore [([], [], [], 0), ([], [], [], 1),
      ([], [], [], 2)]).1 ↔ 1 ≤ 2 ∧ 2 ≤ 3) ∧
    (∃ s', create_workflow initStore [] [] [] 0 = TxResult.ok 1 s') := by
  refine ⟨C10_ids_start_at_one.1 initStore ⟨[], rfl⟩, ?_, ?_⟩
  · have h := C10_ids_start_at_one.2.2.2
      [([], [], [], 0), ([], [], [], 1), ([], [], [], 2)] (by norm_num) 2
    simpa using h
  · exact C10_ids_start_at_one.2.2.1 [] [] [] 0

end CEWCE
